import Mathlib

/-!
Verification of the Command Execution & Safety Engine of the `kai`
natural-language shell assistant.

Shallow embedding: Python strings are modelled as `List Char`; the pure
string helpers of the Python standard library that the code uses
(`str.lower`, `str.strip`, `str.split`, `str.count`, `str.replace`,
`in`-containment, `str.startswith`) are embedded as executable Lean
functions below.  All definitions are translated from the repository
sources (`src/utils/safety.py`, `src/utils/command_sanitizer.py`,
`src/utils/command_classifier.py`, `src/ai/error_fixer.py`,
`src/utils/error_recovery.py`, `src/core/executor.py`).  Effectful code
(the process supervisor) is embedded as a function over an explicit list
of externally supplied events (child-process outcomes and user
confirmations).
-/

/-- Python whitespace for `str.strip` / `str.split` / the regex class `\s`
(ASCII): space, tab, newline, carriage return, vertical tab, form feed. -/
def isPySpace (c : Char) : Bool :=
  c = ' ' || c = '\t' || c = '\n' || c = '\r' || c = '\x0b' || c = '\x0c'

/-- Python `str.lower` (the repository only ever lowercases ASCII command
and error text, where `Char.toLower` agrees with Python). -/
def pyLower (s : List Char) : List Char :=
  s.map Char.toLower

/-- Python `str.strip`: drop leading and trailing whitespace. -/
def pyStrip (s : List Char) : List Char :=
  (((s.dropWhile isPySpace).reverse.dropWhile isPySpace)).reverse

/-- First whitespace-delimited token of a string, or `[]` when there is
none: the `command.split()[0] if command.split() else ''` idiom used
throughout the sources. -/
def pyFirstWord (s : List Char) : List Char :=
  (s.dropWhile isPySpace).takeWhile (fun c => ¬ isPySpace c)

/-- Python substring containment `sub in s`. -/
def pyContains (s sub : List Char) : Bool :=
  decide (sub <:+: s)

/-- Python `s.startswith (p)`. -/
def pyStartsWith (s p : List Char) : Bool :=
  p.isPrefixOf s

/-- Python `s.count (c)` for a single character. -/
def pyCount (s : List Char) (c : Char) : Nat :=
  s.count c

/-- Auxiliary for `pyReplaceAll`, with fuel so that the recursion is
structural (the fuel starts at the length of the text, which bounds the
number of steps since every step consumes at least one character). -/
def pyReplaceAllAux (pat new : List Char) : Nat → List Char → List Char
  | _, [] => []
  | 0, l => l
  | Nat.succ fuel, c :: rest =>
    if ¬ pat.isEmpty && pat.isPrefixOf (c :: rest) then
      new ++ pyReplaceAllAux pat new fuel ((c :: rest).drop pat.length)
    else
      c :: pyReplaceAllAux pat new fuel rest

/-- Python `s.replace (pat, new)`: replace every non-overlapping
occurrence, scanning left to right.  (The sources never call `replace`
with an empty pattern; for an empty pattern this embedding returns `s`
unchanged.) -/
def pyReplaceAll (s pat new : List Char) : List Char :=
  pyReplaceAllAux pat new s.length s

/-- Python `s.replace (pat, new, 1)`: replace only the first occurrence. -/
def pyReplaceFirst (s pat new : List Char) : List Char :=
  match s with
  | [] => []
  | c :: rest =>
    if ¬ pat.isEmpty && pat.isPrefixOf (c :: rest) then
      new ++ (c :: rest).drop pat.length
    else
      c :: pyReplaceFirst rest pat new

/-- Python `"\n".join (lines)`. -/
def pyJoinLines (lines : List (List Char)) : List Char :=
  List.intercalate ('\n' :: []) lines

/-- Python `s.split ('\n')` (keeps empty segments). -/
def pySplitNl (s : List Char) : List (List Char) :=
  List.splitOn '\n' s

/-! ## `src/utils/safety.py` -/

/-- `LONG_RUNNING_KEYWORDS` from `src/utils/safety.py`. -/
def LONG_RUNNING_KEYWORDS : List (List Char) :=
  ["ping".toList, "find /".toList, "sleep".toList, "dd".toList,
   "cat /dev".toList, "yes".toList, "tail -f".toList, "watch".toList,
   "while true".toList, "for i in".toList]

/-- `DANGEROUS_KEYWORDS` from `src/utils/safety.py`. -/
def DANGEROUS_KEYWORDS : List (List Char) :=
  ["rm -rf".toList, "rm -fr".toList, ":()\x7b".toList, "mkfs".toList,
   "shutdown".toList, "reboot".toList, "dd if=".toList,
   "chmod -R 777".toList, "> /dev/sda".toList, "mv / ".toList,
   "format".toList, "fdisk".toList, "parted".toList, "wipefs".toList]

/-- `MODIFY_KEYWORDS` from `src/utils/safety.py`. -/
def MODIFY_KEYWORDS : List (List Char) :=
  ["apt install".toList, "yum install".toList, "pacman -S".toList,
   "brew install".toList, "pip install".toList, "npm install".toList,
   "cargo install".toList]

/-- `SAFE_COMMANDS` from `src/utils/safety.py`. -/
def SAFE_COMMANDS : List (List Char) :=
  ["ls".toList, "pwd".toList, "echo".toList, "cat".toList, "grep".toList,
   "find".toList, "which".toList, "whereis".toList, "date".toList,
   "cal".toList, "uptime".toList, "whoami".toList, "hostname".toList,
   "uname".toList, "df".toList, "du".toList, "free".toList, "top".toList,
   "ps".toList, "history".toList, "man".toList, "help".toList]

namespace SafetyLevel

/-- `SafetyLevel.SAFE` (the Python class holds plain string constants). -/
def SAFE : List Char := "safe".toList

/-- `SafetyLevel.CAUTION`. -/
def CAUTION : List Char := "caution".toList

/-- `SafetyLevel.DANGEROUS`. -/
def DANGEROUS : List Char := "dangerous".toList

/-- `SafetyLevel.LONG_RUNNING`. -/
def LONG_RUNNING : List Char := "long_running".toList

end SafetyLevel

/-- Warning text produced for a dangerous keyword match. -/
def dangerousWarning (keyword : List Char) : List Char :=
  "⚠️  DANGER: This command contains '".toList ++ keyword ++
    "' which could be destructive!".toList

/-- Warning text produced for a long-running keyword match. -/
def longRunningWarning (keyword : List Char) : List Char :=
  "⏳ This command might take a long time (contains '".toList ++ keyword ++
    "')".toList

/-- Warning text produced for a system-modification keyword match. -/
def modifyWarning (keyword : List Char) : List Char :=
  "⚡ This command will modify your system ('".toList ++ keyword ++
    "')".toList

/-- Helper for the pipe-to-shell regex `\|\s*sh|\|\s*bash|\|\s*zsh`:
after a `|`, skip the whitespace run and test for the literal tails. -/
def pipeToShellAfterBar (l : List Char) : Bool :=
  let r := l.dropWhile isPySpace
  pyStartsWith r "sh".toList || pyStartsWith r "bash".toList ||
    pyStartsWith r "zsh".toList

/-- The `re.search (r'\|\s*sh|\|\s*bash|\|\s*zsh', command_lower)` check
from `check_command_safety`: some `|` is followed, after optional
whitespace, by `sh`, `bash` or `zsh`. -/
def pipeToShellMatches : List Char → Bool
  | [] => false
  | c :: rest => (c = '|' && pipeToShellAfterBar rest) || pipeToShellMatches rest

/-- `check_command_safety` from `src/utils/safety.py` (lines 38-75).
The scans over the keyword tables are the code's first-match `for`
loops; the returned value is the `(safety_level, warning_message)`
pair. -/
def check_command_safety (command : List Char) : List Char × Option (List Char) :=
  let command_lower := pyStrip (pyLower command)
  let first_word := if command_lower.isEmpty then [] else pyFirstWord command_lower
  if first_word ∈ SAFE_COMMANDS then
    (SafetyLevel.SAFE, none)
  else
    match DANGEROUS_KEYWORDS.find? (fun keyword => pyContains command_lower keyword) with
    | some keyword => (SafetyLevel.DANGEROUS, some (dangerousWarning keyword))
    | none =>
    match LONG_RUNNING_KEYWORDS.find? (fun keyword => pyContains command_lower keyword) with
    | some keyword => (SafetyLevel.LONG_RUNNING, some (longRunningWarning keyword))
    | none =>
    match MODIFY_KEYWORDS.find? (fun keyword => pyContains command_lower keyword) with
    | some keyword => (SafetyLevel.CAUTION, some (modifyWarning keyword))
    | none =>
    if pipeToShellMatches command_lower then
      (SafetyLevel.DANGEROUS, some "⚠️  DANGER: Piping to shell can be dangerous!".toList)
    else if pyStartsWith command_lower "sudo".toList then
      (SafetyLevel.CAUTION, some "⚡ This command requires elevated privileges".toList)
    else
      (SafetyLevel.SAFE, none)

/-- `validate_command` from `src/utils/safety.py` (lines 77-109):
lexical balance checks, first failing check wins. -/
def validate_command (command : List Char) : Bool × Option (List Char) :=
  if command.isEmpty || (pyStrip command).isEmpty then
    (false, some "Empty command".toList)
  else if pyCount command '\'' % 2 ≠ 0 then
    (false, some "Unmatched single quote".toList)
  else if pyCount command '"' % 2 ≠ 0 then
    (false, some "Unmatched double quote".toList)
  else if pyCount command '(' ≠ pyCount command ')' then
    (false, some "Unmatched parentheses".toList)
  else if pyCount command '[' ≠ pyCount command ']' then
    (false, some "Unmatched brackets".toList)
  else if pyCount command '\x7b' ≠ pyCount command '\x7d' then
    (false, some "Unmatched braces".toList)
  else
    (true, none)

/-- The lexical-balance message `validate_command` produces for a given
command: the message of the first unbalanced pairing in the order the
code checks them, `none` when every pairing is balanced. -/
def imbalanceMsg (command : List Char) : Option (List Char) :=
  if pyCount command '\'' % 2 ≠ 0 then some "Unmatched single quote".toList
  else if pyCount command '"' % 2 ≠ 0 then some "Unmatched double quote".toList
  else if pyCount command '(' ≠ pyCount command ')' then some "Unmatched parentheses".toList
  else if pyCount command '[' ≠ pyCount command ']' then some "Unmatched brackets".toList
  else if pyCount command '\x7b' ≠ pyCount command '\x7d' then some "Unmatched braces".toList
  else none

/-! ## Helper lemmas about the string embedding -/

/-- A string containing a non-whitespace character does not strip to the
empty string. -/
theorem pyStrip_ne_nil {c : List Char} {ch : Char}
    (hmem : ch ∈ c) (hns : ¬ isPySpace ch) : pyStrip c ≠ [] := by
  intro hnil
  unfold pyStrip at hnil
  have h1 : (c.dropWhile isPySpace).reverse.dropWhile isPySpace = [] :=
    List.reverse_eq_nil_iff.mp hnil
  have h2 : ∀ x ∈ (c.dropWhile isPySpace).reverse, isPySpace x :=
    List.dropWhile_eq_nil_iff.mp h1
  have h3 : ∀ x ∈ c.dropWhile isPySpace, isPySpace x := by
    intro x hx
    exact h2 x (List.mem_reverse.mpr hx)
  have hsplit : c.takeWhile isPySpace ++ c.dropWhile isPySpace = c :=
    List.takeWhile_append_dropWhile isPySpace c
  have : ch ∈ c.takeWhile isPySpace ++ c.dropWhile isPySpace := by
    rw [hsplit]; exact hmem
  rcases List.mem_append.mp this with h | h
  · exact hns (List.mem_takeWhile_imp h)
  · exact hns (h3 ch h)

/-- A character that occurs an odd number of times occurs. -/
theorem mem_of_odd_count {c : List Char} {ch : Char}
    (h : c.count ch % 2 ≠ 0) : ch ∈ c := by
  apply List.count_pos_iff.mp
  omega

/-! ## Claim C1 -/

/-- Claim C1 counterexample: the command `echo hi && rm -rf /` contains the
dangerous keyword `rm -rf`, yet `check_command_safety` classifies it `safe`
(not `dangerous`), because the first whitespace-delimited token `echo` is in
the always-safe set and that check runs before the dangerous-keyword scan. -/
theorem C1_counterexample :
    "rm -rf".toList ∈ DANGEROUS_KEYWORDS ∧
    pyContains (pyStrip (pyLower "echo hi && rm -rf /".toList)) "rm -rf".toList = true ∧
    check_command_safety "echo hi && rm -rf /".toList = (SafetyLevel.SAFE, none) ∧
    SafetyLevel.SAFE ≠ SafetyLevel.DANGEROUS := by
  decide

/-- Claim C1 (amended): for every command whose first whitespace-delimited
token is not in the always-safe set, containing a dangerous keyword implies
the `dangerous` classification (with a warning); a command whose first token
is in the always-safe set is classified `safe` regardless of any dangerous
keyword it contains, as the counterexample shows. -/
theorem C1_dangerous_keyword_classification
    (c : List Char)
    (hfw : pyFirstWord (pyStrip (pyLower c)) ∉ SAFE_COMMANDS)
    (hkw : ∃ kw ∈ DANGEROUS_KEYWORDS, kw <:+: pyStrip (pyLower c)) :
    (check_command_safety c).1 = SafetyLevel.DANGEROUS ∧
    (check_command_safety c).2 ≠ none := by
  obtain ⟨kw, hmem, hinf⟩ := hkw
  have hp : pyContains (pyStrip (pyLower c)) kw = true := by
    simpa [pyContains] using hinf
  have hfind : (DANGEROUS_KEYWORDS.find?
      (fun keyword => pyContains (pyStrip (pyLower c)) keyword)).isSome :=
    List.find?_isSome.mpr ⟨kw, hmem, hp⟩
  obtain ⟨kw', hkw'⟩ := Option.isSome_iff_exists.mp hfind
  have hif : (if (pyStrip (pyLower c)).isEmpty then ([] : List Char)
      else pyFirstWord (pyStrip (pyLower c))) = pyFirstWord (pyStrip (pyLower c)) := by
    by_cases h : (pyStrip (pyLower c)).isEmpty
    · rw [if_pos h, List.isEmpty_iff.mp h]; rfl
    · rw [if_neg h]
  unfold check_command_safety
  simp only [hif]
  rw [if_neg hfw, hkw']
  exact ⟨rfl, by simp⟩

/-- Witness for `C1_dangerous_keyword_classification` at the concrete
command `rm -rf /tmp/x`. -/
theorem C1_dangerous_keyword_classification_witness :
    (check_command_safety "rm -rf /tmp/x".toList).1 = SafetyLevel.DANGEROUS ∧
    (check_command_safety "rm -rf /tmp/x".toList).2 ≠ none :=
  C1_dangerous_keyword_classification "rm -rf /tmp/x".toList
    (by decide) ⟨"rm -rf".toList, by decide, by decide⟩

/-! ## Claim C6 -/

/-- Claim C6: validation fails closed on lexical imbalance.  The command
`echo 'unterminated` is rejected with a message mentioning the single
quote, `echo 'ok'` is accepted, and every command with an odd count of
single or double quotes or unequal counts of parentheses, brackets or
braces is rejected with the message of the first failing balance check. -/
theorem C6_validate_fails_closed :
    (validate_command "echo 'unterminated".toList =
        (false, some "Unmatched single quote".toList) ∧
      "single quote".toList <:+: "Unmatched single quote".toList) ∧
    validate_command "echo 'ok'".toList = (true, none) ∧
    (∀ c : List Char,
      (pyCount c '\'' % 2 ≠ 0 ∨ pyCount c '"' % 2 ≠ 0 ∨
        pyCount c '(' ≠ pyCount c ')' ∨ pyCount c '[' ≠ pyCount c ']' ∨
        pyCount c '\x7b' ≠ pyCount c '\x7d') →
      validate_command c = (false, imbalanceMsg c) ∧ imbalanceMsg c ≠ none) := by
  refine ⟨by decide, by decide, ?_⟩
  intro c hdisj
  have hch : ∃ ch ∈ c, ¬ isPySpace ch := by
    rcases hdisj with h | h | h | h | h
    · exact ⟨'\'', mem_of_odd_count h, by decide⟩
    · exact ⟨'"', mem_of_odd_count h, by decide⟩
    · by_cases h0 : pyCount c '(' = 0
      · refine ⟨')', List.count_pos_iff.mp ?_, by decide⟩
        simp only [pyCount] at h h0; omega
      · refine ⟨'(', List.count_pos_iff.mp ?_, by decide⟩
        simp only [pyCount] at h0; omega
    · by_cases h0 : pyCount c '[' = 0
      · refine ⟨']', List.count_pos_iff.mp ?_, by decide⟩
        simp only [pyCount] at h h0; omega
      · refine ⟨'[', List.count_pos_iff.mp ?_, by decide⟩
        simp only [pyCount] at h0; omega
    · by_cases h0 : pyCount c '\x7b' = 0
      · refine ⟨'\x7d', List.count_pos_iff.mp ?_, by decide⟩
        simp only [pyCount] at h h0; omega
      · refine ⟨'\x7b', List.count_pos_iff.mp ?_, by decide⟩
        simp only [pyCount] at h0; omega
  obtain ⟨ch, hmem, hns⟩ := hch
  have hne : c ≠ [] := by
    intro h; rw [h] at hmem; exact (List.not_mem_nil ch) hmem
  have hstrip : pyStrip c ≠ [] := pyStrip_ne_nil hmem hns
  have hguard : (c.isEmpty || (pyStrip c).isEmpty) = false := by
    have h1 : c.isEmpty = false := by
      cases hc : c.isEmpty
      · rfl
      · exact absurd (List.isEmpty_iff.mp hc) hne
    have h2 : (pyStrip c).isEmpty = false := by
      cases hc : (pyStrip c).isEmpty
      · rfl
      · exact absurd (List.isEmpty_iff.mp hc) hstrip
    rw [h1, h2]; rfl
  unfold validate_command imbalanceMsg
  rw [if_neg (by simp [hguard])]
  split_ifs <;> first
    | exact ⟨rfl, by simp⟩
    | (exfalso; tauto)

/-- Witness for the universal part of `C6_validate_fails_closed` at the
concrete command `ab(`, which has unbalanced parentheses. -/
theorem C6_validate_fails_closed_witness :
    validate_command "ab(".toList = (false, some "Unmatched parentheses".toList) := by
  have h := C6_validate_fails_closed.2.2 "ab(".toList
    (Or.inr (Or.inr (Or.inl (by decide))))
  rw [h.1]
  decide

/-! ## `src/utils/command_sanitizer.py` -/

/-- Regex word character (`\w` / the complement of `\b`-relevant
characters): ASCII letters, digits and underscore. -/
def isWordChar (c : Char) : Bool :=
  c.isAlphanum || c = '_'

/-- Boundary test used by `\b` before the match: true at the start of the
string or after a non-word character. -/
def boundaryBefore : Option Char → Bool
  | none => true
  | some c => ¬ isWordChar c

/-- Boundary test used by `\b` after the match: true at the end of the
string or before a non-word character. -/
def boundaryAfter : List Char → Bool
  | [] => true
  | c :: _ => ¬ isWordChar c

/-- The `re.sub (r'\bapt\b', 'apt-get', command)` call of
`sanitize_apt_command`: replace every occurrence of `apt` that is
delimited by word boundaries, scanning left to right (the `prev`
argument carries the character preceding the current position, for the
leading boundary test).  Note the regex `\b` semantics: `-` is not a word
character, so the `apt` inside `apt-get` is itself delimited by word
boundaries and is rewritten. -/
def subAptCore : Option Char → List Char → List Char
  | prev, 'a' :: 'p' :: 't' :: rest =>
    if boundaryBefore prev && boundaryAfter rest then
      "apt-get".toList ++ subAptCore (some 't') rest
    else
      'a' :: subAptCore (some 'a') ('p' :: 't' :: rest)
  | _, c :: rest => c :: subAptCore (some c) rest
  | _, [] => []

/-- Top-level entry for the `\bapt\b` substitution. -/
def subApt (command : List Char) : List Char :=
  subAptCore none command

/-- `sanitize_apt_command` from `src/utils/command_sanitizer.py`
(lines 6-39): rewrite `apt` to `apt-get`, inject
`DEBIAN_FRONTEND=noninteractive` for update/upgrade commands, and add a
`-y` flag to install/upgrade invocations that lack one. -/
def sanitize_apt_command (command : List Char) : List Char :=
  let command := subApt command
  let command :=
    if pyContains command "apt-get update".toList ||
        pyContains command "apt-get upgrade".toList then
      if ¬ pyContains command "DEBIAN_FRONTEND".toList then
        if pyStartsWith (pyStrip command) "sudo".toList then
          pyReplaceFirst command "sudo".toList
            "sudo DEBIAN_FRONTEND=noninteractive".toList
        else
          "DEBIAN_FRONTEND=noninteractive ".toList ++ command
      else command
    else command
  let command :=
    if pyContains command "apt-get install".toList &&
        ¬ pyContains command " -y".toList then
      pyReplaceAll command "apt-get install".toList "apt-get install -y".toList
    else command
  let command :=
    if pyContains command "apt-get upgrade".toList &&
        ¬ pyContains command " -y".toList then
      pyReplaceAll command "apt-get upgrade".toList "apt-get upgrade -y".toList
    else command
  command

/-- `sanitize_command` from `src/utils/command_sanitizer.py`
(lines 42-58): apply the apt rewriting whenever the command mentions
`apt`. -/
def sanitize_command (command : List Char) : List Char :=
  if pyContains command "apt".toList then
    sanitize_apt_command command
  else
    command

/-! ## Claim C3 -/

/-- Claim C3: the sanitizer is not idempotent, contradicting both the
spec and the function's own documentation (`Convert apt commands to
apt-get`, `Match 'apt' as a whole word`): because `-` is not a regex word
character, `\bapt\b` matches the `apt` inside `apt-get`, so a second
sanitization pass corrupts `apt-get list` into `apt-get-get list`.  This
theorem evaluates the code at the failing input `apt list`. -/
theorem C3_sanitize_not_idempotent :
    sanitize_command "apt list".toList = "apt-get list".toList ∧
    sanitize_command (sanitize_command "apt list".toList) =
      "apt-get-get list".toList ∧
    sanitize_command (sanitize_command "apt list".toList) ≠
      sanitize_command "apt list".toList := by
  decide

/-! ## `src/utils/command_classifier.py` -/

/-- `LONG_RUNNING_COMMANDS` from `src/utils/command_classifier.py`
(a Python set literal, transcribed in source order; the classifier only
tests membership-style containment, so the iteration order of the set
does not affect the classification result). -/
def LONG_RUNNING_COMMANDS : List (List Char) :=
  ["apt".toList, "apt-get".toList, "yum".toList, "dnf".toList,
   "pacman".toList, "zypper".toList, "brew".toList,
   "update".toList, "upgrade".toList, "dist-upgrade".toList,
   "full-upgrade".toList,
   "make".toList, "cmake".toList, "gcc".toList, "g++".toList,
   "cargo".toList, "npm".toList, "yarn".toList, "pip".toList,
   "mvn".toList, "gradle".toList, "ant".toList, "bazel".toList,
   "wget".toList, "curl".toList, "git clone".toList, "rsync".toList,
   "scp".toList,
   "mysqldump".toList, "pg_dump".toList, "mongodump".toList,
   "tar".toList, "zip".toList, "unzip".toList, "gzip".toList,
   "bzip2".toList, "7z".toList,
   "docker build".toList, "docker pull".toList, "docker-compose".toList,
   "find".toList, "locate".toList, "updatedb".toList, "clamscan".toList]

/-- `LONG_OPERATION_KEYWORDS` from `src/utils/command_classifier.py`. -/
def LONG_OPERATION_KEYWORDS : List (List Char) :=
  ["install".toList, "update".toList, "upgrade".toList, "download".toList,
   "clone".toList, "build".toList, "compile".toList, "backup".toList,
   "restore".toList, "scan".toList, "search".toList, "index".toList,
   "compress".toList, "decompress".toList, "extract".toList,
   "sync".toList, "copy".toList, "move".toList, "convert".toList,
   "encode".toList, "decode".toList, "render".toList, "process".toList]

/-- `QUICK_COMMANDS` from `src/utils/command_classifier.py`. -/
def QUICK_COMMANDS : List (List Char) :=
  ["ls".toList, "cd".toList, "pwd".toList, "echo".toList, "cat".toList,
   "head".toList, "tail".toList, "wc".toList,
   "date".toList, "whoami".toList, "hostname".toList, "uname".toList,
   "which".toList, "type".toList,
   "alias".toList, "export".toList, "env".toList, "printenv".toList,
   "id".toList, "groups".toList,
   "df".toList, "du".toList, "free".toList, "uptime".toList, "ps".toList,
   "kill".toList, "killall".toList,
   "mkdir".toList, "rmdir".toList, "touch".toList, "rm".toList,
   "mv".toList, "cp".toList, "ln".toList,
   "chmod".toList, "chown".toList, "chgrp".toList, "grep".toList,
   "sed".toList, "awk".toList, "cut".toList,
   "sort".toList, "uniq".toList, "diff".toList, "cmp".toList,
   "file".toList, "stat".toList]

/-- The three timeout durations the classifier reads from the external
config store (`config.get('long_timeout', 1800)` etc.). -/
structure Config where
  long_timeout : Nat
  short_timeout : Nat
  timeout_seconds : Nat
deriving DecidableEq

/-- The defaults of `src/core/config.py`: 1800 s long, 30 s short, 300 s
normal. -/
def defaultConfig : Config :=
  { long_timeout := 1800, short_timeout := 30, timeout_seconds := 300 }

/-- `classify_command_timeout` from `src/utils/command_classifier.py`
(lines 47-86): long-running containment scans first, then the
quick-command base-command check, then the shell-composition check, then
the normal default. -/
def classify_command_timeout (config : Config) (command : List Char) :
    List Char × Nat :=
  let command_lower := pyLower command
  let base_cmd := pyFirstWord command
  let base_cmd_lower := pyLower base_cmd
  match LONG_RUNNING_COMMANDS.find?
      (fun long_cmd => pyContains command_lower long_cmd) with
  | some _ => ("long".toList, config.long_timeout)
  | none =>
  match LONG_OPERATION_KEYWORDS.find?
      (fun keyword => pyContains command_lower keyword) with
  | some _ => ("long".toList, config.long_timeout)
  | none =>
  if base_cmd_lower ∈ QUICK_COMMANDS then
    ("quick".toList, config.short_timeout)
  else if pyContains command "|".toList || pyContains command "&&".toList ||
      pyContains command ";".toList then
    ("normal".toList, config.timeout_seconds)
  else
    ("normal".toList, config.timeout_seconds)

/-! ## Claim C4 -/

/-- Claim C4 counterexample: `ls | grep foo` is classified `quick`, not
`normal`: the quick-command base-command check precedes the
shell-composition (pipe) check, and the base command `ls` is in the
quick set. -/
theorem C4_counterexample :
    classify_command_timeout defaultConfig "ls | grep foo".toList =
      ("quick".toList, 30) ∧
    (classify_command_timeout defaultConfig "ls | grep foo".toList).1 ≠
      "normal".toList := by
  decide

/-- Claim C4 (amended): every command containing `apt-get upgrade` is
classified tier `long` (its text contains the long-running keyword
`apt`); `ls -la` is classified `quick`; and `ls | grep foo` is classified
`quick` (not `normal`), because the quick-command check on the base
command precedes the pipe check. -/
theorem C4_timeout_classification
    (cfg : Config) (c : List Char)
    (h : "apt-get upgrade".toList <:+: c) :
    classify_command_timeout cfg c = ("long".toList, cfg.long_timeout) ∧
    classify_command_timeout defaultConfig "ls -la".toList =
      ("quick".toList, 30) ∧
    classify_command_timeout defaultConfig "ls | grep foo".toList =
      ("quick".toList, 30) := by
  refine ⟨?_, by decide, by decide⟩
  have hapt : "apt".toList <:+: c :=
    List.IsInfix.trans (by decide : "apt".toList <:+: "apt-get upgrade".toList) h
  have hlow : "apt".toList <:+: pyLower c := by
    have := List.IsInfix.map Char.toLower hapt
    simpa [pyLower] using this
  have hp : pyContains (pyLower c) "apt".toList = true := by
    simpa [pyContains] using hlow
  have hfind : (LONG_RUNNING_COMMANDS.find?
      (fun long_cmd => pyContains (pyLower c) long_cmd)).isSome :=
    List.find?_isSome.mpr ⟨"apt".toList, by decide, hp⟩
  obtain ⟨k, hk⟩ := Option.isSome_iff_exists.mp hfind
  unfold classify_command_timeout
  simp only [hk]

/-- Witness for `C4_timeout_classification` at the concrete command
`sudo apt-get upgrade`. -/
theorem C4_timeout_classification_witness :
    classify_command_timeout defaultConfig "sudo apt-get upgrade".toList =
      ("long".toList, 1800) :=
  (C4_timeout_classification defaultConfig "sudo apt-get upgrade".toList
    (by decide)).1

/-! ## `src/ai/error_fixer.py` -/

namespace ErrorFixer

/-- The typo/alternative table of `detect_and_fix_error` (the Python
`dict` literal lists the key `gti` twice with the same value; a `dict`
keeps a single entry). -/
def alternatives : List (List Char × List Char) :=
  [("pytohn".toList, "python".toList),
   ("pyhton".toList, "python".toList),
   ("gti".toList, "git".toList),
   ("claer".toList, "clear".toList),
   ("cd..".toList, "cd ..".toList),
   ("sl".toList, "ls".toList),
   ("grpe".toList, "grep".toList),
   ("mroe".toList, "more".toList),
   ("les".toList, "less".toList)]

/-- The `re.search (r':(\d+)', error_output)` extraction: the digits
after the first `:` that is immediately followed by at least one digit
(the capture is the maximal digit run). -/
def findColonPort : List Char → Option (List Char)
  | [] => none
  | c :: rest =>
    if c = ':' then
      let ds := rest.takeWhile Char.isDigit
      if ds.isEmpty then findColonPort rest else some ds
    else findColonPort rest

/-- The `re.search (r"No module named '([^']+)'", error_output)`
extraction: the non-empty run of non-quote characters between the quotes
of the first full match (when the literal prefix matches but the close
quote is missing, the regex engine moves on to later starting
positions). -/
def findModuleName : List Char → Option (List Char)
  | [] => none
  | c :: rest =>
    if ("No module named '".toList).isPrefixOf (c :: rest) then
      let r := (c :: rest).drop ("No module named '".toList).length
      let content := r.takeWhile (fun d => d ≠ '\'')
      if content.isEmpty then findModuleName rest
      else if (r.drop content.length).isEmpty then findModuleName rest
      else some content
    else findModuleName rest

/-- Labels for the return points of `detect_and_fix_error`, in source
order, used to state which branch produced the result. -/
inductive FixBranch
  | syntaxAnd | typo | permission | fileNotFound | gitInit | portInUse
  | moduleNotFound | unmatchedQuote | network | diskFull | noMatch
deriving DecidableEq

/-- Condition of the shell-`&&`-syntax-error branch of
`detect_and_fix_error` (outer `Syntax error`/`&&`-in-error check and the
inner `&&`-in-command check combined; when the outer check passes but
the inner fails the Python code falls through to the next branch, which
this combined condition reproduces). -/
def syntaxAndCond (command error_output : List Char) : Bool :=
  pyContains error_output "Syntax error".toList &&
    pyContains error_output "&&".toList &&
    pyContains command "&&".toList

/-- Condition of the typo-correction branch: `command not found` in the
lowercased error or exit code 127, and the first word has an entry in
the `alternatives` table. -/
def typoCond (command error_output : List Char) (exit_code : Int) : Bool :=
  (pyContains (pyLower error_output) "command not found".toList ||
      exit_code == 127) &&
    (alternatives.lookup (pyFirstWord command)).isSome

/-- Condition of the permission-denied branch: `permission denied` in
the lowercased error or exit code 126, and the command does not already
start with `sudo `. -/
def permissionCond (command error_output : List Char) (exit_code : Int) : Bool :=
  (pyContains (pyLower error_output) "permission denied".toList ||
      exit_code == 126) &&
    ¬ pyStartsWith command "sudo ".toList

/-- Condition of the file-not-found branch: `no such file or directory`
in the lowercased error and a `/` in the command. -/
def fileNotFoundCond (command error_output : List Char) : Bool :=
  pyContains (pyLower error_output) "no such file or directory".toList &&
    pyContains command "/".toList

/-- Condition of the git-init branch. -/
def gitInitCond (command error_output : List Char) : Bool :=
  pyContains (pyLower error_output) "not a git repository".toList &&
    pyStartsWith command "git ".toList &&
    ¬ pyStartsWith command "git init".toList

/-- Condition of the port-in-use branch: `address already in use` in the
lowercased error and a `:(\d+)` match in the raw error. -/
def portInUseCond (error_output : List Char) : Bool :=
  pyContains (pyLower error_output) "address already in use".toList &&
    (findColonPort error_output).isSome

/-- Condition of the module-not-found branch: the case-sensitive
`No module named` containment and a full quoted-module-name match. -/
def moduleCond (error_output : List Char) : Bool :=
  pyContains error_output "No module named".toList &&
    (findModuleName error_output).isSome

/-- Condition of the unmatched-quote branch (outer error-text check plus
the odd-count requirement on the command's quotes; with both counts even
the Python code falls through). -/
def unmatchedQuoteCond (command error_output : List Char) : Bool :=
  pyContains (pyLower error_output) "unmatched".toList &&
    (pyContains (pyLower error_output) "quote".toList ||
      pyContains error_output "'".toList ||
      pyContains error_output "\"".toList) &&
    (pyCount command '\'' % 2 ≠ 0 || pyCount command '"' % 2 ≠ 0)

/-- Condition of the network branch. -/
def networkCond (error_output : List Char) : Bool :=
  pyContains (pyLower error_output) "network is unreachable".toList ||
    pyContains (pyLower error_output) "could not resolve host".toList

/-- Condition of the disk-full branch. -/
def diskFullCond (error_output : List Char) : Bool :=
  pyContains (pyLower error_output) "no space left on device".toList

/-- `detect_and_fix_error` from `src/ai/error_fixer.py` (lines 6-113),
instrumented with the `FixBranch` label of the return point taken: the
second component is exactly the Python function's return value
(`None` becomes `none`; a returned `(fixed_command, explanation)` pair
becomes `some (fixed_command, explanation)` where a `None` fixed command
is `none`).  An `if` block of the source whose inner condition fails
falls through to the next check, which the combined branch conditions
above reproduce.  (The Python `command.split()[0]` raises `IndexError`
on an all-whitespace command; the executor never passes one, and this
embedding uses the first-word-or-empty form.) -/
def detect_core (command error_output : List Char) (exit_code : Int) :
    FixBranch × Option (Option (List Char) × List Char) :=
  if syntaxAndCond command error_output then
    (FixBranch.syntaxAnd,
      some (some ("bash -c '".toList ++ command ++ "'".toList),
        "Fixed: Shell syntax error. The command uses '&&' which requires bash, not sh.".toList))
  else if typoCond command error_output exit_code then
    match alternatives.lookup (pyFirstWord command) with
    | some alt =>
      (FixBranch.typo,
        some (some (pyReplaceFirst command (pyFirstWord command) alt),
          "Fixed: Typo detected. Changed '".toList ++ pyFirstWord command ++
            "' to '".toList ++ alt ++ "'.".toList))
    | none => (FixBranch.noMatch, none)
  else if permissionCond command error_output exit_code then
    (FixBranch.permission,
      some (some ("sudo ".toList ++ command),
        "Fixed: Permission denied. Added 'sudo' to run with elevated privileges.".toList))
  else if fileNotFoundCond command error_output then
    (FixBranch.fileNotFound,
      some (none,
        "Error: File or directory not found. Check the path and try again.".toList))
  else if gitInitCond command error_output then
    (FixBranch.gitInit,
      some (some ("git init && ".toList ++ command),
        "Fixed: Not a git repository. Running 'git init' first.".toList))
  else if portInUseCond error_output then
    match findColonPort error_output with
    | some port =>
      (FixBranch.portInUse,
        some (none,
          "Error: Port ".toList ++ port ++
            " is already in use. Kill the process or use a different port.".toList))
    | none => (FixBranch.noMatch, none)
  else if moduleCond error_output then
    match findModuleName error_output with
    | some module =>
      (FixBranch.moduleNotFound,
        some (some ("pip install ".toList ++ module ++ " && ".toList ++ command),
          "Fixed: Module '".toList ++ module ++
            "' not found. Installing it first.".toList))
    | none => (FixBranch.noMatch, none)
  else if unmatchedQuoteCond command error_output then
    if pyCount command '\'' % 2 ≠ 0 then
      (FixBranch.unmatchedQuote,
        some (some (command ++ "'".toList),
          "Fixed: Added missing single quote at the end.".toList))
    else
      (FixBranch.unmatchedQuote,
        some (some (command ++ "\"".toList),
          "Fixed: Added missing double quote at the end.".toList))
  else if networkCond error_output then
    (FixBranch.network,
      some (none,
        "Error: Network issue detected. Check your internet connection.".toList))
  else if diskFullCond error_output then
    (FixBranch.diskFull,
      some (none,
        "Error: Disk is full. Free up some space and try again.".toList))
  else
    (FixBranch.noMatch, none)

/-- `detect_and_fix_error`: the value returned by the Python function. -/
def detect_and_fix_error (command error_output : List Char) (exit_code : Int) :
    Option (Option (List Char) × List Char) :=
  (detect_core command error_output exit_code).2

/-- The branch of `detect_and_fix_error` that produced the result. -/
def detectBranchOf (command error_output : List Char) (exit_code : Int) :
    FixBranch :=
  (detect_core command error_output exit_code).1

/-- `analyze_error` from `src/ai/error_fixer.py` (lines 115-152): the
human-readable explanation string. -/
def analyze_error (command error_output : List Char) (exit_code : Int) :
    List Char :=
  if exit_code == 0 then
    "Command completed successfully.".toList
  else
    match detect_and_fix_error command error_output exit_code with
    | some result => result.2
    | none =>
      if exit_code == 1 then
        "Command failed with general error. Check the error message above.".toList
      else if exit_code == 2 then
        "Command failed due to misuse or syntax error.".toList
      else if exit_code == 126 then
        "Permission denied or command not executable.".toList
      else if exit_code == 127 then
        "Command not found. Check if it's installed and in PATH.".toList
      else if exit_code == 130 then
        "Command interrupted by user (Ctrl+C).".toList
      else if exit_code == 137 then
        "Command killed (possibly out of memory).".toList
      else if exit_code == 143 then
        "Command terminated (SIGTERM).".toList
      else
        "Command failed with exit code ".toList ++ (toString exit_code).toList ++
          ".".toList

end ErrorFixer

/-! ## `src/utils/error_recovery.py` -/

namespace ErrorRecovery

/-- Scan for a `\S` character reachable from the current position by
`.*` (which cannot cross a newline): true when some non-whitespace
character occurs before the next `'\n'`. -/
def lineHasNonWs : List Char → Bool
  | [] => false
  | c :: rest =>
    if c = '\n' then false
    else if ¬ isPySpace c then true
    else lineHasNonWs rest

/-- True when `pat` matches at some position reachable from the current
one by `.*` (no newline may be crossed before the match starts). -/
def inLineIsInfixOf (pat : List Char) : List Char → Bool
  | [] => false
  | c :: rest =>
    pat.isPrefixOf (c :: rest) || (c ≠ '\n' && inLineIsInfixOf pat rest)

/-- True when `a` occurs somewhere in the text followed, on the same
line, by an occurrence of `b`: the regex shape `a.*b` under `re.search`
(Python `.` does not match `'\n'`). -/
def seqSameLine (a b : List Char) : List Char → Bool
  | [] => false
  | c :: rest =>
    (a.isPrefixOf (c :: rest) && inLineIsInfixOf b ((c :: rest).drop a.length)) ||
      seqSameLine a b rest

/-- Helper for the `file_not_found` pattern: true when the literal
matches here and a `\S+` completion exists on the same line after it. -/
def fnfLitHere (lit l : List Char) : Bool :=
  lit.isPrefixOf l && lineHasNonWs (l.drop lit.length)

/-- The alternation of the `file_not_found` pattern at one position. -/
def fnfHere (l : List Char) : Bool :=
  fnfLitHere "no such file or directory".toList l ||
    fnfLitHere "cannot stat".toList l ||
    fnfLitHere "not found".toList l

/-- Scan of `fnfHere` over every starting position. -/
def fnfScan : List Char → Bool
  | [] => false
  | c :: rest => fnfHere (c :: rest) || fnfScan rest

/-- The `file_not_found` pattern
`(no such file or directory|cannot stat|not found).*['\"]?(\S+)['\"]?`
(compiled with `re.IGNORECASE`): one of the literals must be followed,
on the same line, by at least one non-whitespace character (the
mandatory `\S+` group; both quote groups are optional). -/
def fileNotFoundMatches (text : List Char) : Bool :=
  fnfScan (pyLower text)

/-- The `port_in_use` pattern `port.*already in use|address already in use`
(IGNORECASE). -/
def portInUseMatches (text : List Char) : Bool :=
  seqSameLine "port".toList "already in use".toList (pyLower text) ||
    pyContains (pyLower text) "address already in use".toList

/-- The `module_not_found` pattern
`(module|package).*not found|no module named` (IGNORECASE). -/
def moduleNotFoundMatches (text : List Char) : Bool :=
  seqSameLine "module".toList "not found".toList (pyLower text) ||
    seqSameLine "package".toList "not found".toList (pyLower text) ||
    pyContains (pyLower text) "no module named".toList

/-- The `git_error` pattern `git.*failed|fatal.*git` (IGNORECASE). -/
def gitErrorMatches (text : List Char) : Bool :=
  seqSameLine "git".toList "failed".toList (pyLower text) ||
    seqSameLine "fatal".toList "git".toList (pyLower text)

/-- An `ErrorPattern` of `src/utils/error_recovery.py`: the compiled
regex is embedded as its match predicate over the error text. -/
structure ErrorPattern where
  matchesText : List Char → Bool
  error_type : List Char
  fixes : List (List Char)

/-- `ERROR_PATTERNS` from `src/utils/error_recovery.py` (lines 31-132),
in source order (first match wins).  Patterns that are plain literals or
literal alternations under IGNORECASE are embedded as lowercase
containment tests. -/
def ERROR_PATTERNS : List ErrorPattern :=
  [{ matchesText := fileNotFoundMatches,
     error_type := "file_not_found".toList,
     fixes :=
      ["Check if the file path is correct (case-sensitive)".toList,
       "Use 'find' or 'locate' to find the file".toList,
       "Verify the file exists: ls -la \x7bpath\x7d".toList,
       "Check current directory: pwd".toList] },
   { matchesText := fun text => pyContains (pyLower text) "permission denied".toList,
     error_type := "permission_denied".toList,
     fixes :=
      ["Try with sudo: sudo \x7bcommand\x7d".toList,
       "Check file permissions: ls -l \x7bfile\x7d".toList,
       "Change permissions: chmod +x \x7bfile\x7d".toList,
       "Check ownership: ls -l \x7bfile\x7d".toList] },
   { matchesText := fun text => pyContains (pyLower text) "command not found".toList,
     error_type := "command_not_found".toList,
     fixes :=
      ["Install the package: sudo apt install \x7bcommand\x7d".toList,
       "Check if command is in PATH: which \x7bcommand\x7d".toList,
       "Try full path: /usr/bin/\x7bcommand\x7d".toList,
       "Search for package: apt search \x7bcommand\x7d".toList] },
   { matchesText := portInUseMatches,
     error_type := "port_in_use".toList,
     fixes :=
      ["Find process using port: lsof -i :\x7bport\x7d".toList,
       "Kill process: kill -9 $(lsof -t -i:\x7bport\x7d)".toList,
       "Use different port".toList,
       "Check running services: netstat -tulpn".toList] },
   { matchesText := fun text => pyContains (pyLower text) "no space left on device".toList,
     error_type := "disk_full".toList,
     fixes :=
      ["Check disk usage: df -h".toList,
       "Find large files: du -sh * | sort -h".toList,
       "Clean package cache: sudo apt clean".toList,
       "Remove old logs: sudo journalctl --vacuum-time=7d".toList] },
   { matchesText := fun text =>
      pyContains (pyLower text) "connection refused".toList ||
        pyContains (pyLower text) "connection timed out".toList,
     error_type := "connection_failed".toList,
     fixes :=
      ["Check if service is running: systemctl status \x7bservice\x7d".toList,
       "Verify network connectivity: ping \x7bhost\x7d".toList,
       "Check firewall rules: sudo ufw status".toList,
       "Test port: telnet \x7bhost\x7d \x7bport\x7d".toList] },
   { matchesText := moduleNotFoundMatches,
     error_type := "module_not_found".toList,
     fixes :=
      ["Install with pip: pip install \x7bmodule\x7d".toList,
       "Check if in requirements.txt".toList,
       "Activate virtual environment: source venv/bin/activate".toList,
       "Check Python path: python -c 'import sys; print(sys.path)'".toList] },
   { matchesText := fun text =>
      pyContains (pyLower text) "syntax error".toList ||
        pyContains (pyLower text) "invalid syntax".toList,
     error_type := "syntax_error".toList,
     fixes :=
      ["Check for typos in command".toList,
       "Verify quote matching".toList,
       "Check command syntax: man \x7bcommand\x7d".toList,
       "Try --help flag: \x7bcommand\x7d --help".toList] },
   { matchesText := fun text =>
      pyContains (pyLower text) "access denied".toList ||
        pyContains (pyLower text) "forbidden".toList,
     error_type := "access_denied".toList,
     fixes :=
      ["Check credentials".toList,
       "Verify API key/token".toList,
       "Check user permissions".toList,
       "Try with elevated privileges".toList] },
   { matchesText := gitErrorMatches,
     error_type := "git_error".toList,
     fixes :=
      ["Check git status: git status".toList,
       "Pull latest changes: git pull".toList,
       "Check remote: git remote -v".toList,
       "Reset if needed: git reset --hard".toList] }]

/-- The `re.search (r"['\"]([^'\"]+)['\"]", error_text)` extraction of
`_format_suggestions`: the non-empty run of non-quote characters between
the first pair of adjacent quote characters. -/
def firstQuoted : List Char → Option (List Char)
  | [] => none
  | c :: rest =>
    if c = '\'' || c = '"' then
      let content := rest.takeWhile (fun d => d ≠ '\'' && d ≠ '"')
      if content.isEmpty then firstQuoted rest
      else if (rest.drop content.length).isEmpty then none
      else some content
    else firstQuoted rest

/-- The `re.search (r"port\s+(\d+)", error_text)` extraction of
`_format_suggestions`: the digits after the first `port` that is
followed by at least one whitespace character and then a digit. -/
def findPortWs : List Char → Option (List Char)
  | [] => none
  | c :: rest =>
    if ("port".toList).isPrefixOf (c :: rest) then
      let after := (c :: rest).drop 4
      let ws := after.takeWhile isPySpace
      let ds := (after.drop ws.length).takeWhile Char.isDigit
      if ¬ ws.isEmpty && ¬ ds.isEmpty then some ds else findPortWs rest
    else findPortWs rest

/-- `ErrorAnalyzer._format_suggestions`: fill the placeholder templates
from the failing command and the captured error text. -/
def format_suggestions (suggestions : List (List Char))
    (command error_text : List Char) : List (List Char) :=
  let base_command := pyFirstWord command
  let file_path := (firstQuoted error_text).getD "file".toList
  let port := (findPortWs error_text).getD "8080".toList
  suggestions.map (fun s =>
    pyReplaceAll
      (pyReplaceAll
        (pyReplaceAll
          (pyReplaceAll
            (pyReplaceAll
              (pyReplaceAll
                (pyReplaceAll s "\x7bcommand\x7d".toList base_command)
                "\x7bfile\x7d".toList file_path)
              "\x7bpath\x7d".toList file_path)
            "\x7bport\x7d".toList port)
          "\x7bservice\x7d".toList base_command)
        "\x7bhost\x7d".toList "localhost".toList)
      "\x7bmodule\x7d".toList base_command)

/-- The error indicators of `ErrorAnalyzer._extract_error_message`. -/
def errIndicators : List (List Char) :=
  ["error:".toList, "fatal:".toList, "failed:".toList, "exception:".toList,
   "cannot".toList, "unable".toList]

/-- `ErrorAnalyzer._extract_error_message`: the first stripped line that
contains an error indicator, else the first non-empty stripped line,
else a fixed fallback; truncated to 200 characters. -/
def extract_error_message (error_text : List Char) : List Char :=
  let lines := pySplitNl (pyStrip error_text)
  match lines.find? (fun line =>
      errIndicators.any (fun ind => pyContains (pyLower (pyStrip line)) ind)) with
  | some line => (pyStrip line).take 200
  | none =>
    match lines.find? (fun line => ¬ (pyStrip line).isEmpty) with
    | some line => (pyStrip line).take 200
    | none => "Unknown error occurred".toList

/-- `ErrorAnalyzer._build_ai_prompt`. -/
def build_ai_prompt (command error_text error_type : List Char) : List Char :=
  "The command '".toList ++ command ++ "' failed with error type '".toList ++
    error_type ++ "'.\nError output:\n".toList ++ error_text.take 500 ++
    "\n\nProvide 2-3 specific, actionable fixes for this error. ".toList ++
    "Consider the context and provide exact commands when possible.".toList

/-- `ErrorAnalyzer._determine_severity`. -/
def determine_severity (exit_code : Int) (error_type : List Char) : List Char :=
  if error_type = "disk_full".toList ∨ error_type = "permission_denied".toList then
    "high".toList
  else if error_type = "file_not_found".toList ∨
      error_type = "command_not_found".toList then
    "medium".toList
  else if exit_code > 100 then
    "high".toList
  else
    "low".toList

/-- `ErrorAnalyzer._get_generic_suggestions` (the Python code indexes
`command.split()[0]` unconditionally in the first suggestion, which
raises on an all-whitespace command; this embedding uses the
first-word-or-empty form the analyzer is always called with). -/
def get_generic_suggestions (command : List Char) : List (List Char) :=
  ["Check the command syntax: ".toList ++ pyFirstWord command ++ " --help".toList,
   "Review the error message carefully".toList,
   "Search for the error online".toList] ++
    (if ¬ (pyFirstWord command).isEmpty then
      ["Check manual: man ".toList ++ pyFirstWord command]
    else [])

/-- The analysis record returned by `ErrorAnalyzer.analyze_error`
(the Python `Dict`). -/
structure Diagnosis where
  error_type : List Char
  description : List Char
  suggestions : List (List Char)
  ai_prompt : List Char
  severity : List Char
deriving DecidableEq

/-- `ErrorAnalyzer.analyze_error` from `src/utils/error_recovery.py`
(lines 159-210): concatenate stderr and stdout, test the ordered
signature table with first match winning, and fall back to a generic
diagnosis.  (The method also appends the error to a JSON history file;
that file I/O does not affect the returned value and is not part of
this embedding.) -/
def analyze_error (command : List Char) (exit_code : Int)
    (stderr stdout : List Char) : Diagnosis :=
  let error_text := stderr ++ " ".toList ++ stdout
  match ERROR_PATTERNS.find? (fun pattern => pattern.matchesText error_text) with
  | some pattern =>
    { error_type := pattern.error_type
      description := extract_error_message error_text
      suggestions := format_suggestions pattern.fixes command error_text
      ai_prompt := build_ai_prompt command error_text pattern.error_type
      severity := determine_severity exit_code pattern.error_type }
  | none =>
    { error_type := "unknown".toList
      description := extract_error_message error_text
      suggestions := get_generic_suggestions command
      ai_prompt := build_ai_prompt command error_text "unknown".toList
      severity := "medium".toList }

end ErrorRecovery

/-! ## Claim C5 -/

/-- Claim C5: the error analyzer tests the concatenated stderr+stdout
against the static ordered signature table with first match winning.
For stderr `bash: foo: command not found` with exit code 127 it returns
category `command_not_found` with a suggestion mentioning installation
or `PATH`; the earlier `file_not_found` signature does not match this
text (its mandatory `(\S+)` group finds no non-whitespace character
after `not found`). -/
theorem C5_analyzer_command_not_found :
    (ErrorRecovery.analyze_error "foo".toList 127
        "bash: foo: command not found".toList []).error_type =
      "command_not_found".toList ∧
    ((ErrorRecovery.analyze_error "foo".toList 127
        "bash: foo: command not found".toList []).suggestions.any
      (fun s => pyContains (pyLower s) "install".toList ||
        pyContains s "PATH".toList)) = true ∧
    ErrorRecovery.fileNotFoundMatches
      ("bash: foo: command not found".toList ++ " ".toList ++ []) = false := by
  decide

/-! ## `src/core/executor.py` -/

/-- What one supervised child run produced (exit code, streamed stdout
lines, stderr text read after exit). -/
structure ExecOutcome where
  exitCode : Int
  stdoutLines : List (List Char)
  stderr : List Char
deriving DecidableEq

/-- The externally observed event of one `execute_command` invocation:
the child ran to completion, a `KeyboardInterrupt` arrived, or some
other exception was raised inside the `try` block (whose `str` is the
message). -/
inductive RunEvent
  | completed (outcome : ExecOutcome)
  | interrupted
  | failed (message : List Char)
deriving DecidableEq

/-- One step of the environment: the run event for the command executed
at this recursion depth, and the user's answer to the
`Run the fixed command?` confirmation prompt should it be asked. -/
structure Step where
  event : RunEvent
  confirm : Bool
deriving DecidableEq

/-- The observable behaviour of one `execute_command` call (including
its recursive fix re-executions): the returned `(success, output)`
pair, the commands spawned in captured mode (in order), the commands
spawned in interactive mode, the timeout watchdogs armed, the fixes
offered by `detect_and_fix_error` (fixed command and explanation), the
error analyses shown when no fix was found, and counts of forwarded
child terminations and observed user interrupts. -/
structure ExecReport where
  result : Bool × Option (List Char)
  spawned : List (List Char)
  interactiveSpawns : List (List Char)
  timersArmed : List Nat
  fixesOffered : List (Option (List Char) × List Char)
  analyses : List (List Char)
  childTerminations : Nat
  interrupts : Nat
deriving DecidableEq

/-- The all-empty report, updated by each branch below. -/
def baseReport : ExecReport :=
  { result := (false, none), spawned := [], interactiveSpawns := [],
    timersArmed := [], fixesOffered := [], analyses := [],
    childTerminations := 0, interrupts := 0 }

/-- `str (TypeError)` raised when the recursion is entered with the
`None` fixed command of a diagnosis-only fix result:
`sanitize_command (None)` evaluates `'apt' in None`. -/
def typeErrorNoneMsg : List Char :=
  "argument of type 'NoneType' is not iterable".toList

/-- `execute_command` from `src/core/executor.py` (lines 31-200),
embedded over an explicit list of environment steps (one per recursive
invocation; an empty list means no further child run is modelled and
yields the all-empty report).  Faithful structure: the command is first
passed through `sanitize_command`; the timeout is classified on the
sanitized command; `dry_run` short-circuits to `(True, None)` with no
child spawned; `interactive` mode spawns without capture and without
arming the watchdog and returns `(returncode == 0, None)`; captured
mode spawns, arms the watchdog, streams stdout, appends
`ERROR: <stderr>` to the captured lines when stderr is non-empty, and on
a non-zero exit consults `detect_and_fix_error`: if a fix result exists
(including a diagnosis-only `(None, explanation)` pair, which is truthy
in Python) it is offered, and on confirmation the function returns the
recursive call on the fixed command — when that command is `None` the
recursive call raises `TypeError` inside the caller's `try`, which its
`except Exception` turns into `(False, str (e))`.  A
`KeyboardInterrupt` makes the supervisor terminate the child and return
`(False, None)` with no analysis and no fix. -/
def execute_command (cfg : Config) (cmd : List Char)
    (dry_run interactive : Bool) : List Step → ExecReport
  | [] =>
    if dry_run then { baseReport with result := (true, none) } else baseReport
  | step :: rest =>
    let cmdS := sanitize_command cmd
    let timeout_seconds := (classify_command_timeout cfg cmdS).2
    if dry_run then
      { baseReport with result := (true, none) }
    else if interactive then
      match step.event with
      | RunEvent.completed outcome =>
        { baseReport with result := (outcome.exitCode == 0, none),
                          interactiveSpawns := [cmdS] }
      | RunEvent.interrupted =>
        { baseReport with result := (false, none),
                          interactiveSpawns := [cmdS], interrupts := 1 }
      | RunEvent.failed message =>
        { baseReport with result := (false, some message),
                          interactiveSpawns := [cmdS] }
    else
      match step.event with
      | RunEvent.interrupted =>
        { baseReport with result := (false, none),
                          spawned := [cmdS], timersArmed := [timeout_seconds],
                          interrupts := 1, childTerminations := 1 }
      | RunEvent.failed message =>
        { baseReport with result := (false, some message),
                          spawned := [cmdS], timersArmed := [timeout_seconds] }
      | RunEvent.completed outcome =>
        let output_lines := outcome.stdoutLines ++
          (if outcome.stderr.isEmpty then []
           else [("ERROR: ".toList ++ outcome.stderr)])
        if outcome.exitCode == 0 then
          { baseReport with result := (true, some (pyJoinLines output_lines)),
                            spawned := [cmdS], timersArmed := [timeout_seconds] }
        else
          match ErrorFixer.detect_and_fix_error cmdS outcome.stderr outcome.exitCode with
          | some fix =>
            if step.confirm then
              match fix.1 with
              | some fixed_cmd =>
                let r := execute_command cfg fixed_cmd false interactive rest
                { result := r.result,
                  spawned := cmdS :: r.spawned,
                  interactiveSpawns := r.interactiveSpawns,
                  timersArmed := timeout_seconds :: r.timersArmed,
                  fixesOffered := fix :: r.fixesOffered,
                  analyses := r.analyses,
                  childTerminations := r.childTerminations,
                  interrupts := r.interrupts }
              | none =>
                { baseReport with
                    result := (false, some typeErrorNoneMsg),
                    spawned := [cmdS], timersArmed := [timeout_seconds],
                    fixesOffered := [fix] }
            else
              { baseReport with
                  result := (false, some (pyJoinLines output_lines)),
                  spawned := [cmdS], timersArmed := [timeout_seconds],
                  fixesOffered := [fix] }
          | none =>
            { baseReport with
                result := (false, some (pyJoinLines output_lines)),
                spawned := [cmdS], timersArmed := [timeout_seconds],
                analyses :=
                  [ErrorFixer.analyze_error cmdS outcome.stderr outcome.exitCode] }

/-- The supervisor's view of the current child process for
`terminate_process`: the exit code `poll ()` would report at entry, and
the one it would report after the graceful-terminate grace period
(`none` means still running). -/
structure Child where
  pollFirst : Option Int
  pollAfterTerm : Option Int
deriving DecidableEq

/-- Observable actions of `terminate_process`. -/
inductive TermAction
  | termSignal | killSignal | msgTerminated | msgNoProcess
deriving DecidableEq

/-- `terminate_process` from `src/core/executor.py` (lines 202-216):
when a live process exists, terminate it, wait the grace period,
escalate to kill if it still has not exited, and clear the handle
(exceptions from the signalling calls are caught and printed inside the
function); otherwise print `No running process to terminate.` and do
nothing.  Returns the new handle state and the actions taken. -/
def terminate_process : Option Child → Option Child × List TermAction
  | some child =>
    if child.pollFirst = none then
      (none,
        [TermAction.termSignal] ++
          (if child.pollAfterTerm = none then [TermAction.killSignal] else []) ++
          [TermAction.msgTerminated])
    else
      (some child, [TermAction.msgNoProcess])
  | none => (none, [TermAction.msgNoProcess])

/-! ## Claim C2 -/

/-- Environment step for the first run in the C2 scenario: the original
command fails with `permission denied` (exit 126) and the user confirms
the offered fix. -/
def c2Step1 : Step :=
  { event := RunEvent.completed
      { exitCode := 126, stdoutLines := [], stderr := "permission denied".toList },
    confirm := true }

/-- Environment step for the second run in the C2 scenario: the fixed
command itself fails with a missing Python module (exit 1) and the user
confirms again. -/
def c2Step2 : Step :=
  { event := RunEvent.completed
      { exitCode := 1, stdoutLines := [],
        stderr := "No module named 'requests'".toList },
    confirm := true }

/-- Environment step for the third run in the C2 scenario: the second
fixed command succeeds. -/
def c2Step3 : Step :=
  { event := RunEvent.completed
      { exitCode := 0, stdoutLines := [], stderr := [] },
    confirm := true }

/-- Claim C2 counterexample: a fixed command that itself fails does
trigger a second automatic fix.  Running `./x` fails with
`permission denied`; the offered fix `sudo ./x` is executed and itself
fails with `No module named 'requests'`; a second fix
`pip install requests && sudo ./x` is offered and executed — three
commands are spawned and two fixes are offered, so the failure of the
fixed command was not terminal. -/
theorem C2_counterexample :
    (execute_command defaultConfig "./x".toList false false
        [c2Step1, c2Step2, c2Step3]).spawned =
      ["./x".toList, "sudo ./x".toList,
        "pip install requests && sudo ./x".toList] ∧
    (execute_command defaultConfig "./x".toList false false
        [c2Step1, c2Step2, c2Step3]).fixesOffered.length = 2 := by
  decide

/-- Claim C2 (amended): the recovery recursion is not bounded to
depth 1.  Whenever the proposed fixed command is executed and itself
fails with an error for which `detect_and_fix_error` again proposes a
runnable fix and the user confirms again, a second fix is proposed and
executed (the recursion is bounded only by the user declining, no fix
matching, or the run succeeding): with such an environment the executor
spawns the original command, the first fixed command and the second
fixed command. -/
theorem C2_recovery_depth_not_bounded
    (cfg : Config) (cmd f1 f2 e1 e2 : List Char)
    (s1 s2 s3 : Step) (rest : List Step) (o1 o2 o3 : ExecOutcome)
    (h1e : s1.event = RunEvent.completed o1) (h1c : s1.confirm = true)
    (h1x : o1.exitCode ≠ 0)
    (h1f : ErrorFixer.detect_and_fix_error (sanitize_command cmd) o1.stderr
      o1.exitCode = some (some f1, e1))
    (h2e : s2.event = RunEvent.completed o2) (h2c : s2.confirm = true)
    (h2x : o2.exitCode ≠ 0)
    (h2f : ErrorFixer.detect_and_fix_error (sanitize_command f1) o2.stderr
      o2.exitCode = some (some f2, e2))
    (h3e : s3.event = RunEvent.completed o3) (h3x : o3.exitCode = 0) :
    (execute_command cfg cmd false false (s1 :: s2 :: s3 :: rest)).spawned =
      [sanitize_command cmd, sanitize_command f1, sanitize_command f2] ∧
    (execute_command cfg cmd false false (s1 :: s2 :: s3 :: rest)).fixesOffered =
      [(some f1, e1), (some f2, e2)] := by
  have hx1 : (o1.exitCode == 0) = false := by simpa using h1x
  have hx2 : (o2.exitCode == 0) = false := by simpa using h2x
  have hx3 : (o3.exitCode == 0) = true := by simpa using h3x
  simp [execute_command, h1e, h2e, h3e, h1c, h2c, hx1, hx2, hx3, h1f, h2f,
    baseReport]

/-- Witness for `C2_recovery_depth_not_bounded` at the concrete C2
scenario. -/
theorem C2_recovery_depth_not_bounded_witness :
    (execute_command defaultConfig "./x".toList false false
        [c2Step1, c2Step2, c2Step3]).spawned =
      [sanitize_command "./x".toList, sanitize_command "sudo ./x".toList,
        sanitize_command "pip install requests && sudo ./x".toList] :=
  (C2_recovery_depth_not_bounded defaultConfig "./x".toList
    "sudo ./x".toList "pip install requests && sudo ./x".toList
    "Fixed: Permission denied. Added 'sudo' to run with elevated privileges.".toList
    "Fixed: Module 'requests' not found. Installing it first.".toList
    c2Step1 c2Step2 c2Step3 []
    { exitCode := 126, stdoutLines := [], stderr := "permission denied".toList }
    { exitCode := 1, stdoutLines := [],
      stderr := "No module named 'requests'".toList }
    { exitCode := 0, stdoutLines := [], stderr := [] }
    rfl rfl (by decide) (by decide) rfl rfl (by decide) (by decide)
    rfl (by decide)).1

/-! ## Claim C7 -/

/-- Claim C7: when a user interrupt is observed during a captured
execution, the supervisor forwards termination to the child and returns
the cancellation result `(False, None)` — distinguishable from every
captured completion, which carries `some` output — and neither error
analysis nor a fix offer happens. -/
theorem C7_interrupt_cancellation (cfg : Config) (cmd : List Char)
    (steps : List Step) (step : Step)
    (h : step.event = RunEvent.interrupted) :
    (execute_command cfg cmd false false (step :: steps)).result =
      (false, none) ∧
    (execute_command cfg cmd false false (step :: steps)).childTerminations = 1 ∧
    (execute_command cfg cmd false false (step :: steps)).analyses = [] ∧
    (execute_command cfg cmd false false (step :: steps)).fixesOffered = [] := by
  simp [execute_command, h, baseReport]

/-- Witness for `C7_interrupt_cancellation` at a concrete interrupted
run of `ls`. -/
theorem C7_interrupt_cancellation_witness :
    (execute_command defaultConfig "ls".toList false false
        [{ event := RunEvent.interrupted, confirm := false }]).result =
      (false, none) ∧
    (execute_command defaultConfig "ls".toList false false
        [{ event := RunEvent.interrupted, confirm := false }]).analyses = [] :=
  have h := C7_interrupt_cancellation defaultConfig "ls".toList []
    { event := RunEvent.interrupted, confirm := false } rfl
  ⟨h.1, h.2.2.1⟩

/-! ## Claim C8 -/

/-- Claim C8: calling `terminate_process` when no process is running —
the handle is absent or the process has already exited — is a no-op: it
only prints `No running process to terminate.`, sends no signal, raises
nothing and leaves the handle state unchanged. -/
theorem C8_terminate_noop (s : Option Child)
    (h : s = none ∨ ∃ child code, s = some child ∧ child.pollFirst = some code) :
    terminate_process s = (s, [TermAction.msgNoProcess]) := by
  rcases h with rfl | ⟨child, code, rfl, hcode⟩
  · rfl
  · simp [terminate_process, hcode]

/-- Witness for `C8_terminate_noop` with no process handle. -/
theorem C8_terminate_noop_witness :
    terminate_process none = (none, [TermAction.msgNoProcess]) :=
  C8_terminate_noop none (Or.inl rfl)

/-! ## Claim C9 -/

set_option maxHeartbeats 1600000 in
/-- The four diagnosis-only return points of `detect_and_fix_error`
yield a present result whose fixed-command component is `None`. -/
theorem detect_core_diagnosis_only (command error_output : List Char)
    (exit_code : Int)
    (res : ErrorFixer.FixBranch × Option (Option (List Char) × List Char))
    (hres : ErrorFixer.detect_core command error_output exit_code = res)
    (h : res.1 ∈ [ErrorFixer.FixBranch.fileNotFound,
      ErrorFixer.FixBranch.portInUse, ErrorFixer.FixBranch.network,
      ErrorFixer.FixBranch.diskFull]) :
    ∃ explanation, res.2 = some (none, explanation) := by
  unfold ErrorFixer.detect_core at hres
  repeat' split at hres
  all_goals rw [← hres] at h ⊢
  all_goals first
    | exact ⟨_, rfl⟩
    | (exfalso; simp at h)

/-- Claim C9: every input reaching the file-not-found-with-path,
port-in-use, network-unreachable or disk-full branch of
`detect_and_fix_error` yields a non-`None` result whose fixed-command
component is `None` (a diagnosis without a runnable command); the
executor, which treats any non-`None` result as a fix offer, then
spawns no further command — the original sanitized command stays the
only one executed, and the offered fix it records carries `none` as the
command to execute. -/
theorem C9_diagnosis_only_fixes :
    (∀ (command error_output : List Char) (exit_code : Int),
      ErrorFixer.detectBranchOf command error_output exit_code ∈
        [ErrorFixer.FixBranch.fileNotFound, ErrorFixer.FixBranch.portInUse,
         ErrorFixer.FixBranch.network, ErrorFixer.FixBranch.diskFull] →
      ∃ explanation,
        ErrorFixer.detect_and_fix_error command error_output exit_code =
          some (none, explanation)) ∧
    (∀ (cfg : Config) (cmd : List Char) (steps : List Step) (step : Step)
        (outcome : ExecOutcome) (explanation : List Char),
      step.event = RunEvent.completed outcome →
      outcome.exitCode ≠ 0 →
      ErrorFixer.detect_and_fix_error (sanitize_command cmd) outcome.stderr
        outcome.exitCode = some (none, explanation) →
      (execute_command cfg cmd false false (step :: steps)).spawned =
        [sanitize_command cmd] ∧
      (execute_command cfg cmd false false (step :: steps)).fixesOffered =
        [(none, explanation)]) := by
  constructor
  · intro command error_output exit_code h
    exact detect_core_diagnosis_only command error_output exit_code _ rfl h
  · intro cfg cmd steps step outcome explanation he hx hf
    have hx' : (outcome.exitCode == 0) = false := by simpa using hx
    cases hc : step.confirm <;>
      simp [execute_command, he, hx', hf, hc, baseReport]

/-- The child outcome of the C9 witness scenario: exit code 1 with
`no space left on device` on stderr. -/
def c9Outcome : ExecOutcome :=
  { exitCode := 1, stdoutLines := [],
    stderr := "no space left on device".toList }

/-- The environment step of the C9 witness scenario. -/
def c9Step : Step :=
  { event := RunEvent.completed c9Outcome, confirm := true }

/-- Witness for `C9_diagnosis_only_fixes` at the disk-full branch:
`cp a b` failing with `no space left on device`. -/
theorem C9_diagnosis_only_fixes_witness :
    (∃ explanation, ErrorFixer.detect_and_fix_error "cp a b".toList
      "no space left on device".toList 1 = some (none, explanation)) ∧
    (execute_command defaultConfig "cp a b".toList false false
      [c9Step]).spawned = [sanitize_command "cp a b".toList] := by
  constructor
  · exact C9_diagnosis_only_fixes.1 "cp a b".toList
      "no space left on device".toList 1 (by decide)
  · exact (C9_diagnosis_only_fixes.2 defaultConfig "cp a b".toList []
      c9Step c9Outcome
      "Error: Disk is full. Free up some space and try again.".toList
      rfl (by decide) (by decide)).1

/-! ## Claim C10 -/

/-- Claim C10: an interactive (non-dry-run) execution spawns the child
without arming any timeout watchdog, captures nothing, and returns
`(returncode == 0, None)` regardless of the classified timeout. -/
theorem C10_interactive_no_watchdog (cfg : Config) (cmd : List Char)
    (steps : List Step) (step : Step) (outcome : ExecOutcome)
    (h : step.event = RunEvent.completed outcome) :
    (execute_command cfg cmd false true (step :: steps)).result =
      (outcome.exitCode == 0, none) ∧
    (execute_command cfg cmd false true (step :: steps)).timersArmed = [] ∧
    (execute_command cfg cmd false true (step :: steps)).spawned = [] ∧
    (execute_command cfg cmd false true (step :: steps)).interactiveSpawns =
      [sanitize_command cmd] := by
  simp [execute_command, h, baseReport]

/-- The child outcome of the C10 witness scenario: exit code 0 and no
captured output. -/
def c10Outcome : ExecOutcome :=
  { exitCode := 0, stdoutLines := [], stderr := [] }

/-- The environment step of the C10 witness scenario. -/
def c10Step : Step :=
  { event := RunEvent.completed c10Outcome, confirm := false }

/-- Witness for `C10_interactive_no_watchdog` at an interactive `vim x`
run exiting with code 0. -/
theorem C10_interactive_no_watchdog_witness :
    (execute_command defaultConfig "vim x".toList false true
      [c10Step]).result = (true, none) ∧
    (execute_command defaultConfig "vim x".toList false true
      [c10Step]).timersArmed = [] :=
  have h := C10_interactive_no_watchdog defaultConfig "vim x".toList []
    c10Step c10Outcome rfl
  ⟨h.1, h.2.1⟩
